import Mathlib

/-!
Verification of the terrain-generation core of the clap engine
(src/core/terrain.c, helpers from src/core/model.h) against its
natural-language specification.

Modelling conventions:
- C `float`/`double` values are modelled exactly: every value the code
  actually computes on the relevant inputs is a dyadic rational, so the
  pure arithmetic layers live in ℚ, and the layers that call `cosf`
  (cos_interp and everything above it) live in ℝ with Real.cos.
- The POSIX rand48 generator family (srand48 / drand48 / lrand48) is a
  48-bit linear congruential generator specified exactly by POSIX; it is
  embedded as explicit state passing of the 48-bit state.
- `rand()` (libc, algorithm unspecified by C/POSIX) appears only in
  terrain_bsp_cb for the octave draw; it is modelled as an arbitrary
  stream `rnd : ℕ → ℕ` of non-negative ints consumed left to right.
- C arrays become lists (byte grids) or index functions (float maps);
  out-of-range accesses, which are undefined behaviour in C, are modelled
  by a default value of 0 and are tracked separately where a claim is
  about index bounds.
-/

namespace Clap

/-! ## POSIX rand48 family (exact LCG semantics) -/

/-- One step of the 48-bit LCG behind drand48 and lrand48. -/
def rand48next (st : ℕ) : ℕ := (25214903917 * st + 11) % 2 ^ 48

/-- srand48: the high 32 bits of the state are the low 32 bits of the seed,
the low 16 bits are 0x330E. -/
def srand48 (s : ℕ) : ℕ := (s % 2 ^ 32) * 2 ^ 16 + 0x330E

/-- drand48: advance the state, return the new state divided by 2^48. -/
def drand48 (st : ℕ) : ℚ × ℕ :=
  let st1 := rand48next st
  ((st1 : ℚ) / 2 ^ 48, st1)

/-- lrand48: advance the state, return its high 31 bits. -/
def lrand48 (st : ℕ) : ℕ × ℕ :=
  let st1 := rand48next st
  (st1 / 2 ^ 17, st1)

/-! ## Byte grids: xyarray_get / xyarray_set (terrain.c lines 9-27) -/

/-- xyarray_get from terrain.c. The leading range check returns 0 for any
out-of-range coordinate; the wrap branch that follows it in the source is
kept here literally, but it is unreachable. -/
def xyarray_get (arr : List ℕ) (width x y : ℤ) : ℕ :=
  if x < 0 ∨ y < 0 ∨ width ≤ x ∨ width ≤ y then 0
  else
    let x1 := if x < 0 then width - 1 else if width ≤ x then 0 else x
    arr.getD (y * width + x1).toNat 0

/-- xyarray_set from terrain.c: wraps x (single step), writes at y*width+x. -/
def xyarray_set (arr : List ℕ) (width x y : ℤ) (v : ℕ) : List ℕ :=
  let x1 := if x < 0 then width - 1 else if width ≤ x then 0 else x
  arr.set (y * width + x1).toNat v

/-! ## Neighbor-counting strategies (terrain.c lines 43-91) -/

/-- neigh_vn1: count of the 4 orthogonal neighbors that are non-zero. -/
def neigh_vn1 (arr : List ℕ) (side x y : ℤ) : ℕ :=
  (if xyarray_get arr side (x + 1) y ≠ 0 then 1 else 0) +
  (if xyarray_get arr side (x - 1) y ≠ 0 then 1 else 0) +
  (if xyarray_get arr side x (y + 1) ≠ 0 then 1 else 0) +
  (if xyarray_get arr side x (y - 1) ≠ 0 then 1 else 0)

/-- neigh_m1: count of all 8 neighbors that are non-zero. -/
def neigh_m1 (arr : List ℕ) (side x y : ℤ) : ℕ :=
  neigh_vn1 arr side x y +
  (if xyarray_get arr side (x + 1) (y + 1) ≠ 0 then 1 else 0) +
  (if xyarray_get arr side (x - 1) (y + 1) ≠ 0 then 1 else 0) +
  (if xyarray_get arr side (x + 1) (y - 1) ≠ 0 then 1 else 0) +
  (if xyarray_get arr side (x - 1) (y - 1) ≠ 0 then 1 else 0)

/-- neigh_vnv: count of the 4 orthogonal neighbors strictly greater than
the cell itself. -/
def neigh_vnv (arr : List ℕ) (side x y : ℤ) : ℕ :=
  let v := xyarray_get arr side x y
  (if v < xyarray_get arr side (x + 1) y then 1 else 0) +
  (if v < xyarray_get arr side (x - 1) y then 1 else 0) +
  (if v < xyarray_get arr side x (y + 1) then 1 else 0) +
  (if v < xyarray_get arr side x (y - 1) then 1 else 0)

/-- neigh_mv: count of all 8 neighbors strictly greater than the cell. -/
def neigh_mv (arr : List ℕ) (side x y : ℤ) : ℕ :=
  let v := xyarray_get arr side x y
  neigh_vnv arr side x y +
  (if v < xyarray_get arr side (x + 1) (y + 1) then 1 else 0) +
  (if v < xyarray_get arr side (x - 1) (y + 1) then 1 else 0) +
  (if v < xyarray_get arr side (x + 1) (y - 1) then 1 else 0) +
  (if v < xyarray_get arr side (x - 1) (y - 1) then 1 else 0)

/-! ## Cellular automaton (terrain.c lines 93-146) -/

/-- struct cell_automaton (the name string is irrelevant to the logic). -/
structure CellAutomaton where
  born : ℕ
  surv : ℕ
  nr_states : ℕ
  decay : Bool
  neigh : List ℕ → ℤ → ℤ → ℤ → ℕ

/-- Body of the double loop of cell_aut_step for one cell (i, j): reads the
current (partially updated) grid, writes the new value in place. -/
def cell_aut_cell (ca : CellAutomaton) (side : ℤ) (arr : List ℕ) (i j : ℤ) : List ℕ :=
  let n := ca.neigh arr side i j
  let v := xyarray_get arr side i j
  if v = 0 ∧ ca.born.testBit n then xyarray_set arr side i j ca.nr_states
  else if v ≠ 0 ∧ ca.surv.testBit n then arr
  else if v ≠ 0 ∧ ca.decay then xyarray_set arr side i j (v - 1)
  else arr

/-- cell_aut_step: the C double loop, i outer and j inner, mutating the grid
in place (each iteration sees the writes of the previous ones). -/
def cell_aut_step (ca : CellAutomaton) (arr : List ℕ) (side : ℤ) : List ℕ :=
  (List.range side.toNat).foldl
    (fun acc (i : ℕ) =>
      (List.range side.toNat).foldl
        (fun acc2 (j : ℕ) => cell_aut_cell ca side acc2 (i : ℤ) (j : ℤ)) acc)
    arr

/-- The same in-place pass written as a single fold over the row-major list
of cell coordinates (i outer, j inner), making the update order explicit. -/
def cell_aut_step_rowmajor (ca : CellAutomaton) (arr : List ℕ) (side : ℤ) : List ℕ :=
  ((List.range side.toNat).flatMap
      (fun (i : ℕ) => (List.range side.toNat).map (fun (j : ℕ) => ((i : ℤ), (j : ℤ))))).foldl
    (fun acc p => cell_aut_cell ca side acc p.1 p.2) arr

/-- Modelled from the spec: the synchronous automaton step the specification
describes, in which every new cell value is computed from the pre-step grid
only (no read-after-write inside one iteration). For comparison with
cell_aut_step. -/
def sync_step (ca : CellAutomaton) (arr : List ℕ) (side : ℤ) : List ℕ :=
  (List.range (side * side).toNat).map (fun k =>
    let x : ℤ := (k : ℤ) % side
    let y : ℤ := (k : ℤ) / side
    let n := ca.neigh arr side x y
    let v := xyarray_get arr side x y
    if v = 0 ∧ ca.born.testBit n then ca.nr_states
    else if v ≠ 0 ∧ ca.surv.testBit n then v
    else if v ≠ 0 ∧ ca.decay then v - 1
    else v)

/-- ca_test, the maze rule used by the terrain builder. -/
def ca_test : CellAutomaton :=
  { born := 3 <<< 2, surv := 3 <<< 7, nr_states := 4, decay := true, neigh := neigh_m1 }

/-- ca_gen_maze: seed every cell from the ambient lrand48 stream (value
nr_states when lrand48 mod 8 is at most nr_states, else 0), then run the
automaton a number of steps. Returns the grid and the final rand48 state. -/
def ca_gen_maze (ca : CellAutomaton) (side : ℤ) (steps : ℕ) (st : ℕ) : List ℕ × ℕ :=
  let seeded :=
    (List.range side.toNat).foldl
      (fun acc (i : ℕ) =>
        (List.range side.toNat).foldl
          (fun acc2 (j : ℕ) =>
            let v := (lrand48 acc2.2).1
            let st2 := (lrand48 acc2.2).2
            (xyarray_set acc2.1 side (i : ℤ) (j : ℤ)
              (if v % 8 ≤ ca.nr_states then ca.nr_states else 0), st2))
          acc)
      (List.replicate (side * side).toNat 0, st)
  (Nat.rec seeded.1 (fun _ g => cell_aut_step ca g side) steps, seeded.2)

/-! ## Per-coordinate seed heights (terrain.c lines 148-190) -/

/-- get_rand_height with the global rand48 state made explicit: the call
reseeds the generator from seed XOR (x + z * 43210) and draws once. The
incoming state is overwritten by srand48, which is exactly what the C code
does to the process-global state. -/
def get_rand_height (seed x z : ℕ) (st : ℕ) : ℚ × ℕ :=
  let _ := st
  let st1 := srand48 (seed ^^^ (x + z * 43210))
  let d := drand48 st1
  (d.1 * 2 - 1, d.2)

/-- The value returned by get_rand_height (independent of the incoming
state, see the claim theorems). -/
def grh (seed x z : ℕ) : ℚ := (get_rand_height seed x z 0).1

/-- get_mapped_rand_height: single-step torus wrap of both indices into
[0, nr_vert), then a read of the map0 array, which the builder fills with
grh seed i j at index i * nr_vert + j. -/
def get_mapped_rand_height (seed nr_vert : ℕ) (x z : ℤ) : ℚ :=
  let n : ℤ := nr_vert
  let x1 := if x < 0 then n - 1 else if n ≤ x then 0 else x
  let z1 := if z < 0 then n - 1 else if n ≤ z then 0 else z
  grh seed x1.toNat z1.toNat

/-- get_avg_height: 3x3 smoothing kernel over the wrapped seed grid. -/
def get_avg_height (seed n : ℕ) (x z : ℤ) : ℚ :=
  let corners :=
    (get_mapped_rand_height seed n (x - 1) (z - 1) +
     get_mapped_rand_height seed n (x + 1) (z - 1) +
     get_mapped_rand_height seed n (x - 1) (z + 1) +
     get_mapped_rand_height seed n (x + 1) (z + 1)) / 16
  let sides :=
    (get_mapped_rand_height seed n (x - 1) z +
     get_mapped_rand_height seed n (x + 1) z +
     get_mapped_rand_height seed n x (z - 1) +
     get_mapped_rand_height seed n x (z + 1)) / 8
  let self := get_mapped_rand_height seed n x z / 4
  corners + sides + self

/-! ## Cosine interpolation and fractal synthesis (model.h, terrain.c 192-227) -/

/-- cos_interp from model.h. -/
noncomputable def cos_interp (a b blend : ℝ) : ℝ :=
  let theta := blend * Real.pi
  let f := (1 - Real.cos theta) / 2
  a * (1 - f) + b * f

/-- get_interp_height: cosine-eased bilinear interpolation between the four
averaged seed heights around (x, z). -/
noncomputable def get_interp_height (seed n : ℕ) (x z : ℝ) : ℝ :=
  let intx : ℤ := ⌊x⌋
  let intz : ℤ := ⌊z⌋
  let fracx := x - intx
  let fracz := z - intz
  let v1 : ℝ := (get_avg_height seed n intx intz : ℚ)
  let v2 : ℝ := (get_avg_height seed n (intx + 1) intz : ℚ)
  let v3 : ℝ := (get_avg_height seed n intx (intz + 1) : ℚ)
  let v4 : ℝ := (get_avg_height seed n (intx + 1) (intz + 1) : ℚ)
  let i1 := cos_interp v1 v2 fracx
  let i2 := cos_interp v3 v4 fracx
  cos_interp i1 i2 fracz

/-- OCTAVES from terrain.c. -/
def OCTAVES : ℕ := 4

/-- get_height: multi-octave sum with roughness 0.5; ty is the terrain
origin height t.y added at the end. -/
noncomputable def get_height (seed n : ℕ) (ty : ℝ) (x z : ℤ) (amp : ℝ) (oct : ℕ) : ℝ :=
  let d : ℝ := 2 ^ ((oct : ℤ) - 1)
  ty + ∑ i ∈ Finset.range oct,
    get_interp_height seed n ((x : ℝ) * (2 ^ i / d)) ((z : ℝ) * (2 ^ i / d)) *
      ((1 / 2 : ℝ) ^ i * amp)

/-! ## BSP partitioner (terrain.c lines 250-474)

C integer division truncates toward zero, which is Int.tdiv. A bsp_part is
either a leaf carrying the amplitude and octave count assigned by
terrain_bsp_cb, or an internal node carrying its two children; internal
nodes keep amp = 0 and oct = 0, matching the calloc-zeroed fields that
terrain_bsp_cb never fills for them. The root back-pointer of the C struct
is replaced by passing the root (or its area) explicitly. -/

inductive Bsp where
  | leaf (x y w h : ℤ) (amp : ℚ) (oct : ℕ)
  | node (x y w h : ℤ) (a b : Bsp)

def Bsp.x : Bsp → ℤ
  | .leaf x _ _ _ _ _ => x
  | .node x _ _ _ _ _ => x

def Bsp.y : Bsp → ℤ
  | .leaf _ y _ _ _ _ => y
  | .node _ y _ _ _ _ => y

def Bsp.w : Bsp → ℤ
  | .leaf _ _ w _ _ _ => w
  | .node _ _ w _ _ _ => w

def Bsp.h : Bsp → ℤ
  | .leaf _ _ _ h _ _ => h
  | .node _ _ _ h _ _ => h

def Bsp.amp : Bsp → ℚ
  | .leaf _ _ _ _ amp _ => amp
  | .node _ _ _ _ _ _ => 0

def Bsp.oct : Bsp → ℕ
  | .leaf _ _ _ _ _ oct => oct
  | .node _ _ _ _ _ _ => 0

/-- Whether the node has children (bp->a non-NULL, equivalently bp->b). -/
def bsp_has_children : Bsp → Bool
  | .leaf _ _ _ _ _ _ => false
  | .node _ _ _ _ _ _ => true

/-- bsp_area. -/
def bsp_area (n : Bsp) : ℤ := n.w * n.h

/-- bsp_needs_split, in terms of the node rectangle, the area of the tree
root (reached through the root back-pointer in C) and the level. The parent
parameter of the C function is unused there and dropped here.
BSP_MIN_WIDTH is 1. -/
def bsp_needs_split (w h rootArea : ℤ) (level : ℕ) : Bool :=
  if w = 2 ∨ h = 2 then false
  else if 16 < level then false
  else if 4 < Int.tdiv w h ∨ 4 < Int.tdiv h w then true
  else if Int.tdiv rootArea 4 < w * h then true
  else if level < 3 then true
  else false

/-- Modelled from the spec: clampd from util.h (util.h is not in the
sources; the spec says the split fraction is clamped to [0.2, 0.8]). The
doubles 0.2 and 0.8 differ from 1/5 and 4/5 by less than 2^-48, and no
multiple of 2^-48 lies between either pair, so the rational clamp is exact
on every drand48 output. -/
def clampd (v lo hi : ℚ) : ℚ := if v < lo then lo else if hi < v then hi else v

/-- C cast of a double to int: truncation toward zero. -/
def ctrunc (q : ℚ) : ℤ := if q < 0 then ⌈q⌉ else ⌊q⌋

/-- terrain_bsp_cb: on each produced leaf, draw the amplitude from drand48
(clamped by the level-dependent cap) and the octave count from rand().
AMPLITUDE is 8. Returns ((amp, oct), rand48 state, rand stream index). -/
def terrain_bsp_cb (rnd : ℕ → ℕ) (level : ℕ) (st ridx : ℕ) : (ℚ × ℕ) × ℕ × ℕ :=
  let (d, st1) := drand48 st
  let amp : ℚ := min (d * 8) ((((16 : ℤ) - (level : ℤ)) * 3 : ℤ) : ℚ)
  let oct : ℕ := rnd ridx % 4 + 3
  ((amp, oct), st1, ridx + 1)

/-- bsp_part_one: split the rectangle (x, y, w, h), recurse into each child
while bsp_needs_split says so, otherwise finish the child as a leaf via
terrain_bsp_cb. The C recursion terminates because bsp_needs_split is false
whenever level exceeds 16, so a fuel of 18 at level 0 is never exhausted;
the fuel-0 fallback leaf is unreachable from bsp_process. -/
def bsp_part_one (rnd : ℕ → ℕ) (rootArea : ℤ) :
    ℕ → ℤ → ℤ → ℤ → ℤ → ℕ → ℕ → ℕ → Bsp × ℕ × ℕ
  | 0, x, y, w, h, _, st, ridx => (Bsp.leaf x y w h 0 0, st, ridx)
  | fuel + 1, x, y, w, h, level, st, ridx =>
    let d := drand48 st
    let st1 := d.2
    let frac := clampd d.1 (1 / 5) (4 / 5)
    let vert0 : Bool := level % 2 = 1
    let vertical : Bool :=
      if 4 < Int.tdiv w h then true else if 4 < Int.tdiv h w then false else vert0
    let rab :=
      if vertical then
        let aw := ctrunc (min (max (frac * (w : ℚ)) 1) ((w : ℚ) - 1))
        let ra :=
          if bsp_needs_split aw h rootArea level then
            bsp_part_one rnd rootArea fuel x y aw h (level + 1) st1 ridx
          else
            let c := terrain_bsp_cb rnd level st1 ridx
            (Bsp.leaf x y aw h c.1.1 c.1.2, c.2.1, c.2.2)
        let rb :=
          if bsp_needs_split (w - aw) h rootArea level then
            bsp_part_one rnd rootArea fuel (x + aw) y (w - aw) h (level + 1) ra.2.1 ra.2.2
          else
            let c := terrain_bsp_cb rnd level ra.2.1 ra.2.2
            (Bsp.leaf (x + aw) y (w - aw) h c.1.1 c.1.2, c.2.1, c.2.2)
        (ra, rb)
      else
        let ah := ctrunc (min (max (frac * (h : ℚ)) 1) ((h : ℚ) - 1))
        let ra :=
          if bsp_needs_split w ah rootArea level then
            bsp_part_one rnd rootArea fuel x y w ah (level + 1) st1 ridx
          else
            let c := terrain_bsp_cb rnd level st1 ridx
            (Bsp.leaf x y w ah c.1.1 c.1.2, c.2.1, c.2.2)
        let rb :=
          if bsp_needs_split w (h - ah) rootArea level then
            bsp_part_one rnd rootArea fuel x (y + ah) w (h - ah) (level + 1) ra.2.1 ra.2.2
          else
            let c := terrain_bsp_cb rnd level ra.2.1 ra.2.2
            (Bsp.leaf x (y + ah) w (h - ah) c.1.1 c.1.2, c.2.1, c.2.2)
        (ra, rb)
    (Bsp.node x y w h rab.1.1 rab.2.1, rab.2.2.1, rab.2.2.2)

/-- bsp_process: seed the rand48 stream with srand48(seed) and partition
starting at level 0. The depth parameter of the C function is unused. -/
def bsp_process (seed : ℕ) (x y w h : ℤ) (rnd : ℕ → ℕ) : Bsp :=
  (bsp_part_one rnd (w * h) 18 x y w h 0 (srand48 seed) 0).1

/-- bsp_within_rect. -/
def bsp_within_rect (bp : Bsp) (x y : ℤ) : Bool :=
  bp.x ≤ x ∧ x < bp.x + bp.w ∧ bp.y ≤ y ∧ y < bp.y + bp.h

/-- bsp_within_ellipse: the semi-axes are the integer halves of the sides.
When a semi-axis is 0 (side 0 or 1), the C float division yields inf or NaN
and the comparison with 1 is false; that case is made explicit here. -/
def bsp_within_ellipse (bp : Bsp) (x y : ℤ) : Bool :=
  let xax : ℚ := (Int.tdiv bp.w 2 : ℤ)
  let yax : ℚ := (Int.tdiv bp.h 2 : ℤ)
  let dx : ℚ := (x : ℚ) - ((bp.x + Int.tdiv bp.w 2 : ℤ) : ℚ)
  let dy : ℚ := (y : ℚ) - ((bp.y + Int.tdiv bp.h 2 : ℤ) : ℚ)
  if ¬ bsp_within_rect bp x y then false
  else if xax = 0 ∨ yax = 0 then false
  else decide (dx ^ 2 / xax ^ 2 + dy ^ 2 / yax ^ 2 ≤ 1)

/-- bsp_within: rectangle test when the first child has children itself,
ellipse test otherwise. -/
def bsp_within (bp : Bsp) (x y : ℤ) : Bool :=
  match bp with
  | .node _ _ _ _ a _ =>
    if bsp_has_children a then bsp_within_rect bp x y else bsp_within_ellipse bp x y
  | .leaf _ _ _ _ _ _ => bsp_within_ellipse bp x y

/-- bsp_find: descend, at each internal node taking the larger-area child
when the point passes its region test, the smaller one otherwise
(bsp_larger_smaller inlined so the recursion is structural). -/
def bsp_find : Bsp → ℤ → ℤ → Bsp
  | .leaf x y w h amp oct, _, _ => .leaf x y w h amp oct
  | .node _ _ _ _ a b, px, py =>
    if bsp_area a < bsp_area b then
      if bsp_within b px py then bsp_find b px py else bsp_find a px py
    else
      if bsp_within a px py then bsp_find a px py else bsp_find b px py

/-- bsp_xfrac: signed fractional x-position inside the node, -1 at the left
edge and +1 at the right; integer division for the center offset, float
division by w/2. -/
def bsp_xfrac (node : Bsp) (x : ℤ) : ℚ :=
  ((x - node.x - Int.tdiv node.w 2 : ℤ) : ℚ) / ((node.w : ℚ) / 2)

/-- bsp_yfrac. -/
def bsp_yfrac (node : Bsp) (y : ℤ) : ℚ :=
  ((y - node.y - Int.tdiv node.h 2 : ℤ) : ℚ) / ((node.h : ℚ) / 2)

/-- bsp_xneigh: the leaf across the x boundary in the direction of the sign
of bsp_xfrac, or the node itself at the outer edges of the root. -/
def bsp_xneigh (root node : Bsp) (x y : ℤ) : Bsp :=
  if 0 ≤ bsp_xfrac node x then
    if root.x + root.w ≤ x then node
    else bsp_find root (node.x + node.w) y
  else
    if x ≤ root.x then node
    else bsp_find root (node.x - 1) y

/-- bsp_yneigh. -/
def bsp_yneigh (root node : Bsp) (x y : ℤ) : Bsp :=
  if 0 ≤ bsp_yfrac node y then
    if root.y + root.h ≤ y then node
    else bsp_find root x (node.y + node.h)
  else
    if y ≤ root.y then node
    else bsp_find root x (node.y - 1)

/-! ## Triangulated query engine (model.h barrycentric, terrain.c 486-529) -/

/-- barrycentric from model.h; a point is (x, y, z), pos is (x, z). -/
def barrycentric {α : Type} [LinearOrderedField α] (p1 p2 p3 : α × α × α) (pos : α × α) : α :=
  let det := (p2.2.2 - p3.2.2) * (p1.1 - p3.1) + (p3.1 - p2.1) * (p1.2.2 - p3.2.2)
  let l1 := ((p2.2.2 - p3.2.2) * (pos.1 - p3.1) + (p3.1 - p2.1) * (pos.2 - p3.2.2)) / det
  let l2 := ((p3.2.2 - p1.2.2) * (pos.1 - p3.1) + (p1.1 - p3.1) * (pos.2 - p3.2.2)) / det
  let l3 := 1 - l1 - l2
  l1 * p1.2.1 + l2 * p2.2.1 + l3 * p3.2.1

/-- struct terrain, restricted to the fields terrain_height uses. The map
pointer may be NULL, hence Option; a map is an index function standing for
the float array of length nr_vert * nr_vert. -/
structure TerrainA (α : Type) where
  seed : ℕ
  map : Option (ℤ → α)
  x : α
  y : α
  z : α
  side : ℕ
  nr_vert : ℕ

/-- terrain_height from terrain.c: NULL check, world-rect bounds check
returning the 0 sentinel, grid-cell localisation, fixed diagonal triangle
choice, barycentric interpolation. -/
def terrain_height {α : Type} [LinearOrderedField α] [FloorRing α]
    (t : TerrainA α) (x z : α) : α :=
  let square : α := (t.side : α) / ((t.nr_vert : α) - 1)
  let tx := x - t.x
  let tz := z - t.z
  let gridx : ℤ := ⌊tx / square⌋
  let gridz : ℤ := ⌊tz / square⌋
  let xoff := (tx - square * (gridx : α)) / square
  let zoff := (tz - square * (gridz : α)) / square
  let nrv : ℤ := t.nr_vert
  match t.map with
  | none => 0
  | some m =>
    if x < t.x ∨ x > t.x + (t.side : α) ∨ z < t.z ∨ z > t.z + (t.side : α) then 0
    else if xoff ≤ 1 - zoff then
      barrycentric (0, m (gridx * nrv + gridz), 0)
                   (1, m ((gridx + 1) * nrv + gridz), 0)
                   (0, m (gridx * nrv + gridz + 1), 1) (xoff, zoff)
    else
      barrycentric (1, m ((gridx + 1) * nrv + gridz), 0)
                   (1, m ((gridx + 1) * nrv + gridz + 1), 1)
                   (0, m (gridx * nrv + gridz + 1), 1) (xoff, zoff)

/-- The list of height-map indices terrain_height reads, in source order,
for a query that reaches the interpolation (empty when the NULL or bounds
guard returns early). -/
def terrain_height_reads {α : Type} [LinearOrderedField α] [FloorRing α]
    (t : TerrainA α) (x z : α) : List ℤ :=
  let square : α := (t.side : α) / ((t.nr_vert : α) - 1)
  let tx := x - t.x
  let tz := z - t.z
  let gridx : ℤ := ⌊tx / square⌋
  let gridz : ℤ := ⌊tz / square⌋
  let xoff := (tx - square * (gridx : α)) / square
  let zoff := (tz - square * (gridz : α)) / square
  let nrv : ℤ := t.nr_vert
  match t.map with
  | none => []
  | some _ =>
    if x < t.x ∨ x > t.x + (t.side : α) ∨ z < t.z ∨ z > t.z + (t.side : α) then []
    else if xoff ≤ 1 - zoff then
      [gridx * nrv + gridz, (gridx + 1) * nrv + gridz, gridx * nrv + gridz + 1]
    else
      [(gridx + 1) * nrv + gridz, (gridx + 1) * nrv + gridz + 1, gridx * nrv + gridz + 1]

/-! ## Heightfield builder (terrain.c lines 567-631, map-building part)

terrain_init_square_landscape, restricted to the state that determines the
height map: the maze automaton (which consumes the ambient lrand48 stream
present at entry, X0), the BSP pass (which reseeds the stream from the
terrain seed), the map0 seed-height grid (each entry reseeds the stream
from seed and cell coordinates) and the per-cell height synthesis. The mesh
emission, entity bookkeeping and placement pass do not write the map. -/

/-- MAZE_FAC. -/
def MAZE_FAC : ℕ := 8

/-- The maze-blend value avg the builder computes for grid cell (i, j):
cosine blend of the containing maze cell with its x and y neighbor cells,
except that a strictly larger center value wins outright. -/
noncomputable def maze_avg (maze : List ℕ) (mside : ℤ) (i j : ℕ) : ℝ :=
  let xfrac : ℚ := ((i % MAZE_FAC : ℕ) : ℚ) / 8
  let yfrac : ℚ := ((j % MAZE_FAC : ℕ) : ℚ) / 8
  let xpos : ℤ := (i / MAZE_FAC : ℕ)
  let ypos : ℤ := (j / MAZE_FAC : ℕ)
  let cn := xyarray_get maze mside xpos ypos
  let xn := xyarray_get maze mside (if 1 / 2 ≤ xfrac then xpos + 1 else xpos - 1) ypos
  let yn := xyarray_get maze mside xpos (if 1 / 2 ≤ yfrac then ypos + 1 else ypos - 1)
  let xavg : ℝ :=
    if xn < cn then (cn : ℝ) else cos_interp (cn : ℝ) (xn : ℝ) ((2 * xfrac - 1 : ℚ) : ℝ)
  let yavg : ℝ :=
    if yn < cn then (cn : ℝ) else cos_interp (cn : ℝ) (yn : ℝ) ((2 * yfrac - 1 : ℚ) : ℝ)
  cos_interp xavg yavg ((|xfrac - yfrac| : ℚ) : ℝ)

/-- The amplitude and octave-count arguments the builder passes to
get_height for grid cell (i, j). The BSP lookups and the cosine-blended BSP
amplitude are computed exactly as in the source, bound to local names, and
then left unused by the source: what is passed is 1.5 to the power of the
maze-blend value, and the constant OCTAVES. -/
noncomputable def builder_args (tree : Bsp) (maze : List ℕ) (mside : ℤ) (i j : ℕ) : ℝ × ℕ :=
  let bp := bsp_find tree (i : ℤ) (j : ℤ)
  let bpx := bsp_xneigh tree tree (i : ℤ) (j : ℤ)
  let bpy := bsp_yneigh tree tree (i : ℤ) (j : ℤ)
  let xfracB := bsp_xfrac bp (i : ℤ)
  let yfracB := bsp_yfrac bp (j : ℤ)
  let xamp := cos_interp (bp.amp : ℝ) (bpx.amp : ℝ) ((|xfracB| : ℚ) : ℝ)
  let yamp := cos_interp (bp.amp : ℝ) (bpy.amp : ℝ) ((|yfracB| : ℚ) : ℝ)
  let amp := cos_interp xamp yamp ((|xfracB - yfracB| : ℚ) : ℝ)
  let _unused := amp
  ((1.5 : ℝ) ^ maze_avg maze mside i j, OCTAVES)

/-- The cosine-blended BSP amplitude for cell (i, j), exactly as the source
computes (and then drops) it; this is the value the specification says is
passed to the synthesizer. -/
noncomputable def bsp_blended_amp (tree : Bsp) (i j : ℕ) : ℝ :=
  let bp := bsp_find tree (i : ℤ) (j : ℤ)
  let bpx := bsp_xneigh tree tree (i : ℤ) (j : ℤ)
  let bpy := bsp_yneigh tree tree (i : ℤ) (j : ℤ)
  let xfracB := bsp_xfrac bp (i : ℤ)
  let yfracB := bsp_yfrac bp (j : ℤ)
  let xamp := cos_interp (bp.amp : ℝ) (bpx.amp : ℝ) ((|xfracB| : ℚ) : ℝ)
  let yamp := cos_interp (bp.amp : ℝ) (bpy.amp : ℝ) ((|yfracB| : ℚ) : ℝ)
  cos_interp xamp yamp ((|xfracB - yfracB| : ℚ) : ℝ)

/-- The height-map entry for grid cell (i, j):
get_height(t, i, j, powf(1.5, avg), OCTAVES) + avg. -/
noncomputable def builder_cell (tree : Bsp) (maze : List ℕ) (mside : ℤ)
    (seed nr_v : ℕ) (y : ℝ) (i j : ℕ) : ℝ :=
  let a := builder_args tree maze mside i j
  get_height seed nr_v y (i : ℤ) (j : ℤ) a.1 a.2 + maze_avg maze mside i j

/-- The height-map-building part of terrain_init_square_landscape. X0 is
the ambient rand48 state at entry (consumed by the maze seeding, which runs
before the terrain seed is used anywhere); seed is the terrain seed the
code takes from the clock; rnd is the ambient rand() stream consumed by
terrain_bsp_cb. The map function is the filled array: entry k of the array
is the cell (k / nr_v, k mod nr_v), and indices outside the allocation are
meaningless (out-of-range reads are undefined behaviour in C). -/
noncomputable def terrain_init_square_landscape (X0 seed : ℕ) (rnd : ℕ → ℕ)
    (x y z : ℝ) (sideF : ℝ) (nr_v : ℕ) : TerrainA ℝ :=
  let mside : ℤ := (nr_v / MAZE_FAC : ℕ)
  let maze := (ca_gen_maze ca_test mside 3 X0).1
  let tree := bsp_process seed 0 0 (nr_v : ℤ) (nr_v : ℤ) rnd
  let n2 : ℤ := (nr_v : ℤ) * (nr_v : ℤ)
  { seed := seed
    map := some (fun k =>
      if 0 ≤ k ∧ k < n2 then
        builder_cell tree maze mside seed nr_v y (k.toNat / nr_v) (k.toNat % nr_v)
      else 0)
    x := x
    y := y
    z := z
    side := (⌊sideF⌋).toNat
    nr_vert := nr_v }

/-! ## Specification predicates and concrete instances used by the claim
theorems -/

/-- Every leaf octave value in a tree built with a rand() stream that is
constantly 0 is 3 (from terrain_bsp_cb) or 0 (the fuel fallback, which
bsp_process never reaches). -/
def oct_ok : Bsp → Prop
  | .leaf _ _ _ _ _ o => o = 0 ∨ o = 3
  | .node _ _ _ _ a b => oct_ok a ∧ oct_ok b

/-- The tree and maze of a concrete builder run: ambient rand48 state 0,
terrain seed 1, rand() stream constantly 0, nr_v = 9 (so mside = 1). -/
def treeC1 : Bsp := bsp_process 1 0 0 9 9 (fun _ => 0)

def mazeC1 : List ℕ := (ca_gen_maze ca_test 1 3 0).1

/-- One split is exact: the children areas sum to the parent area, and the
children rectangles tile the parent, side by side along x or stacked along
y, with matching cross extents and offsets. -/
def good_split (px py pw ph : ℤ) (a b : Bsp) : Prop :=
  bsp_area a + bsp_area b = pw * ph ∧
  ((a.x = px ∧ a.y = py ∧ a.h = ph ∧ b.x = px + a.w ∧ b.y = py ∧ b.h = ph ∧
      a.w + b.w = pw) ∨
   (a.x = px ∧ a.y = py ∧ a.w = pw ∧ b.x = px ∧ b.y = py + a.h ∧ b.w = pw ∧
      a.h + b.h = ph))

/-- Every internal node of the tree satisfies good_split. -/
def all_splits_good : Bsp → Prop
  | .leaf _ _ _ _ _ _ => True
  | .node px py pw ph a b => good_split px py pw ph a b ∧ all_splits_good a ∧ all_splits_good b

def tC7 : TerrainA ℚ :=
  { seed := 0, map := some (fun _ => 5), x := 0, y := 0, z := 0, side := 4, nr_vert := 3 }

def tC6 : TerrainA ℚ :=
  { seed := 0, map := some (fun _ => 0), x := 0, y := 0, z := 0, side := 1, nr_vert := 2 }

/-- A concrete built terrain: ambient rand48 state 0, terrain seed 1,
rand() stream constantly 0, origin (0, 0, 0), world side 8, nr_v = 9. -/
noncomputable def tC3 : TerrainA ℝ := terrain_init_square_landscape 0 1 (fun _ => 0) 0 0 0 8 9

/-! ## Helper lemmas -/

lemma cos_interp_zero (a b : ℝ) : cos_interp a b 0 = a := by
  unfold cos_interp
  simp

lemma cos_interp_neg_one (a b : ℝ) : cos_interp a b (-1) = b := by
  simp only [cos_interp, neg_one_mul, Real.cos_neg, Real.cos_pi]
  ring

lemma get_interp_height_intCast (seed n : ℕ) (k l : ℤ) :
    get_interp_height seed n (k : ℝ) (l : ℝ) = ((get_avg_height seed n k l : ℚ) : ℝ) := by
  unfold get_interp_height
  rw [Int.floor_intCast, Int.floor_intCast]
  simp [cos_interp_zero]

lemma get_interp_height_eq (seed n : ℕ) {x z : ℝ} (k l : ℤ)
    (hx : x = (k : ℝ)) (hz : z = (l : ℝ)) :
    get_interp_height seed n x z = ((get_avg_height seed n k l : ℚ) : ℝ) := by
  subst hx
  subst hz
  exact get_interp_height_intCast seed n k l

lemma foldl_flatMap {α β γ : Type} (f : β → α → β) (g : γ → List α) (l : List γ) (init : β) :
    (l.flatMap g).foldl f init = l.foldl (fun acc c => (g c).foldl f acc) init := by
  induction l generalizing init with
  | nil => rfl
  | cons c l ih => simp [List.flatMap_cons, List.foldl_append, ih]

/-! ## Claim C4: toroidal reads of the automaton grid -/

/-- C4: the claim says out-of-range byte-grid reads wrap modulo the width,
so that the cell (0, y) is an orthogonal neighbor of (width - 1, y). The
code disagrees: evaluated on a 3-wide grid whose only live cell is (0, 0),
the read of (3, 0) returns 0 instead of the wrapped value 1, and the
orthogonal neighbor count of the edge cell (2, 0) is 0 instead of 1. The
wrap branch inside xyarray_get sits after an early return that already
covered every out-of-range coordinate, so it is dead code, while
xyarray_set does wrap x: the claimed (and specified) toroidal read is
clearly the intent, and the guard in xyarray_get is the slip. -/
theorem xyarray_get_no_wrap_at_edge :
    xyarray_get [1, 0, 0, 0, 0, 0, 0, 0, 0] 3 3 0 = 0 ∧
    xyarray_get [1, 0, 0, 0, 0, 0, 0, 0, 0] 3 0 0 = 1 ∧
    neigh_vn1 [1, 0, 0, 0, 0, 0, 0, 0, 0] 3 2 0 = 0 := by
  decide

/-! ## Claim C5: automaton step updates in place, not synchronously -/

/-- C5 counterexample: a rule that births a cell with 1 or 2 live
orthogonal neighbors, on a 2x2 grid with one live cell. The in-place pass
of the code births (1, 1) because the earlier writes to (0, 1) and (1, 0)
are visible when its neighbors are counted; the synchronous step of the
claim leaves (1, 1) dead. -/
theorem cell_aut_step_not_synchronous :
    cell_aut_step
      { born := 6, surv := 0, nr_states := 1, decay := false, neigh := neigh_vn1 }
      [1, 0, 0, 0] 2 ≠
    sync_step
      { born := 6, surv := 0, nr_states := 1, decay := false, neigh := neigh_vn1 }
      [1, 0, 0, 0] 2 := by
  decide

/-- C5 amended: one automaton step is the in-place sequential pass over the
cells in loop order (first coordinate outer, second inner); each update
reads the grid as already mutated by the cells visited before it. -/
theorem cell_aut_step_eq_rowmajor (ca : CellAutomaton) (arr : List ℕ) (side : ℤ) :
    cell_aut_step ca arr side = cell_aut_step_rowmajor ca arr side := by
  unfold cell_aut_step cell_aut_step_rowmajor
  rw [foldl_flatMap]
  simp only [List.foldl_map]

/-! ## Claim C9: split decision precedence -/

/-- C9 counterexample: a 2x8 node whose area 16 exceeds a quarter of the 32
root area, at level 0 (below 3): both force conditions of the claim hold,
yet the code does not split, because the minimum-width stop (width equal to
2) is tested first and wins. -/
theorem bsp_needs_split_stop_beats_force :
    bsp_needs_split 2 8 32 0 = false ∧ Int.tdiv 32 4 < 2 * 8 ∧ (0 : ℕ) < 3 := by
  decide

/-- C9 amended: the stop conditions take precedence. A node is split
exactly when neither side equals twice the minimum cell width, the level is
at most 16, and at least one of the aspect-ratio, area or shallow-depth
conditions asks for a split. -/
theorem bsp_needs_split_iff (w h rootArea : ℤ) (level : ℕ) :
    bsp_needs_split w h rootArea level = true ↔
      (¬(w = 2 ∨ h = 2) ∧ level ≤ 16 ∧
        (4 < Int.tdiv w h ∨ 4 < Int.tdiv h w ∨ Int.tdiv rootArea 4 < w * h ∨ level < 3)) := by
  unfold bsp_needs_split
  split_ifs with h1 h2 h3 h4 h5 <;> simp_all
  all_goals omega

/-! ## Claim C10: the per-coordinate seed-height draw is referentially
transparent -/

/-- C10: get_rand_height reseeds the generator from seed XOR
(x + z * 43210) before drawing, so its return value does not depend on the
incoming generator state (in particular not on call order or on any other
coordinate having been drawn in between), and it always lies in [-1, 1]. -/
lemma drand48_bounds (st : ℕ) : 0 ≤ (drand48 st).1 ∧ (drand48 st).1 < 1 := by
  unfold drand48 rand48next
  constructor
  · positivity
  · rw [div_lt_one (by positivity)]
    exact_mod_cast Nat.mod_lt _ (by positivity)

theorem get_rand_height_pure (seed x z st1 st2 : ℕ) :
    (get_rand_height seed x z st1).1 = (get_rand_height seed x z st2).1 ∧
    -1 ≤ (get_rand_height seed x z st1).1 ∧ (get_rand_height seed x z st1).1 ≤ 1 := by
  refine ⟨rfl, ?_, ?_⟩ <;>
  · show _ ≤ _
    unfold get_rand_height
    obtain ⟨h0, h1⟩ := drand48_bounds (srand48 (seed ^^^ (x + z * 43210)))
    simp only
    linarith

/-! ## Claim C1: what the builder passes to get_height -/

/-- A child of a split is either a recursive subtree or a leaf finished by
terrain_bsp_cb; with the constant-0 rand() stream the leaf octave is 3. -/
lemma oct_ok_child (rootArea : ℤ) (fuel : ℕ)
    (ih : ∀ (x y w h : ℤ) (level st ridx : ℕ),
      oct_ok (bsp_part_one (fun _ => 0) rootArea fuel x y w h level st ridx).1)
    (c : Bool) (x y w h : ℤ) (level st ridx st0 ridx0 : ℕ) :
    oct_ok (if c = true then
        bsp_part_one (fun _ => 0) rootArea fuel x y w h (level + 1) st ridx
      else
        (Bsp.leaf x y w h (terrain_bsp_cb (fun _ => 0) level st0 ridx0).1.1
            (terrain_bsp_cb (fun _ => 0) level st0 ridx0).1.2,
          (terrain_bsp_cb (fun _ => 0) level st0 ridx0).2.1,
          (terrain_bsp_cb (fun _ => 0) level st0 ridx0).2.2)).1 := by
  cases c
  · exact Or.inr rfl
  · exact ih x y w h (level + 1) st ridx

lemma oct_ok_node_parts (v : Bool) (pA pB : (Bsp × ℕ × ℕ) × (Bsp × ℕ × ℕ))
    (hA1 : oct_ok pA.1.1) (hA2 : oct_ok pA.2.1)
    (hB1 : oct_ok pB.1.1) (hB2 : oct_ok pB.2.1) :
    oct_ok ((if v = true then pA else pB).1.1) ∧
    oct_ok ((if v = true then pA else pB).2.1) := by
  cases v
  · exact ⟨hB1, hB2⟩
  · exact ⟨hA1, hA2⟩

lemma oct_ok_bsp_part_one (rootArea : ℤ) :
    ∀ (fuel : ℕ) (x y w h : ℤ) (level st ridx : ℕ),
      oct_ok (bsp_part_one (fun _ => 0) rootArea fuel x y w h level st ridx).1 := by
  intro fuel
  induction fuel with
  | zero => intro x y w h level st ridx; exact Or.inl rfl
  | succ fuel ih =>
    intro x y w h level st ridx
    exact oct_ok_node_parts _ _ _
      (oct_ok_child rootArea fuel ih _ _ _ _ _ _ _ _ _ _)
      (oct_ok_child rootArea fuel ih _ _ _ _ _ _ _ _ _ _)
      (oct_ok_child rootArea fuel ih _ _ _ _ _ _ _ _ _ _)
      (oct_ok_child rootArea fuel ih _ _ _ _ _ _ _ _ _ _)

lemma oct_ok_bsp_find :
    ∀ (t : Bsp) (px py : ℤ), oct_ok t →
      (bsp_find t px py).oct = 0 ∨ (bsp_find t px py).oct = 3 := by
  intro t
  induction t with
  | leaf x y w h amp oct =>
    intro px py hok
    exact hok
  | node x y w h a b iha ihb =>
    intro px py hok
    obtain ⟨ha, hb⟩ := hok
    simp only [bsp_find]
    split_ifs <;> first | exact iha px py ha | exact ihb px py hb

/-- C1 counterexample: in the concrete builder run treeC1 / mazeC1, at grid
cell (0, 0), the pair of arguments the builder passes to get_height is not
(cosine-blended BSP amplitude, octaves of the containing BSP leaf): the
octave argument is the constant OCTAVES = 4, while every leaf of treeC1
stores octave count 3. -/
theorem builder_args_not_from_bsp :
    ¬ ((builder_args treeC1 mazeC1 1 0 0).1 = bsp_blended_amp treeC1 0 0 ∧
       (builder_args treeC1 mazeC1 1 0 0).2 = (bsp_find treeC1 0 0).oct) := by
  rintro ⟨-, h2⟩
  have h4 : (builder_args treeC1 mazeC1 1 0 0).2 = 4 := rfl
  have hoct : (bsp_find treeC1 0 0).oct = 0 ∨ (bsp_find treeC1 0 0).oct = 3 :=
    oct_ok_bsp_find _ 0 0 (oct_ok_bsp_part_one (9 * 9) 18 0 0 9 9 0 (srand48 1) 0)
  rw [h4] at h2
  rcases hoct with h | h <;> omega

/-- C1 amended: the amplitude and octave count passed to get_height do not
come from the BSP tree at all. The builder computes the blended BSP
amplitude but drops it: the arguments are the same for every tree, and the
octave argument is the constant OCTAVES = 4 (the amplitude argument being
1.5 to the power of the maze-blend value by definition of builder_args). -/
theorem builder_args_independent_of_bsp (tree tree2 : Bsp) (maze : List ℕ)
    (mside : ℤ) (i j : ℕ) :
    builder_args tree maze mside i j = builder_args tree2 maze mside i j ∧
    (builder_args tree maze mside i j).2 = OCTAVES :=
  ⟨rfl, rfl⟩

/-! ## Claim C8: BSP splits tile exactly -/

lemma bsp_part_one_fst_x (rnd : ℕ → ℕ) (rootArea : ℤ) (fuel : ℕ) (x y w h : ℤ)
    (level st ridx : ℕ) :
    (bsp_part_one rnd rootArea fuel x y w h level st ridx).1.x = x := by
  cases fuel <;> rfl

lemma bsp_part_one_fst_y (rnd : ℕ → ℕ) (rootArea : ℤ) (fuel : ℕ) (x y w h : ℤ)
    (level st ridx : ℕ) :
    (bsp_part_one rnd rootArea fuel x y w h level st ridx).1.y = y := by
  cases fuel <;> rfl

lemma bsp_part_one_fst_w (rnd : ℕ → ℕ) (rootArea : ℤ) (fuel : ℕ) (x y w h : ℤ)
    (level st ridx : ℕ) :
    (bsp_part_one rnd rootArea fuel x y w h level st ridx).1.w = w := by
  cases fuel <;> rfl

lemma bsp_part_one_fst_h (rnd : ℕ → ℕ) (rootArea : ℤ) (fuel : ℕ) (x y w h : ℤ)
    (level st ridx : ℕ) :
    (bsp_part_one rnd rootArea fuel x y w h level st ridx).1.h = h := by
  cases fuel <;> rfl

lemma good_split_of_rects_v (px py pw ph aw : ℤ) (a b : Bsp)
    (hax : a.x = px) (hay : a.y = py) (haw : a.w = aw) (hah : a.h = ph)
    (hbx : b.x = px + aw) (hby : b.y = py) (hbw : b.w = pw - aw) (hbh : b.h = ph) :
    good_split px py pw ph a b := by
  refine ⟨?_, Or.inl ⟨hax, hay, hah, ?_, hby, hbh, ?_⟩⟩
  · simp only [bsp_area, haw, hah, hbw, hbh]
    ring
  · rw [hbx, haw]
  · rw [haw, hbw]
    ring

lemma good_split_of_rects_h (px py pw ph ah : ℤ) (a b : Bsp)
    (hax : a.x = px) (hay : a.y = py) (haw : a.w = pw) (hah : a.h = ah)
    (hbx : b.x = px) (hby : b.y = py + ah) (hbw : b.w = pw) (hbh : b.h = ph - ah) :
    good_split px py pw ph a b := by
  refine ⟨?_, Or.inr ⟨hax, hay, haw, hbx, ?_, hbw, ?_⟩⟩
  · simp only [bsp_area, haw, hah, hbw, hbh]
    ring
  · rw [hby, hah]
  · rw [hah, hbh]
    ring

lemma split_child_spec (rnd : ℕ → ℕ) (rootArea : ℤ) (fuel : ℕ)
    (ih : ∀ (x y w h : ℤ) (level st ridx : ℕ),
      all_splits_good (bsp_part_one rnd rootArea fuel x y w h level st ridx).1)
    (c : Bool) (x y w h : ℤ) (level st ridx st0 ridx0 : ℕ) :
    (if c = true then
        bsp_part_one rnd rootArea fuel x y w h (level + 1) st ridx
      else
        (Bsp.leaf x y w h (terrain_bsp_cb rnd level st0 ridx0).1.1
            (terrain_bsp_cb rnd level st0 ridx0).1.2,
          (terrain_bsp_cb rnd level st0 ridx0).2.1,
          (terrain_bsp_cb rnd level st0 ridx0).2.2)).1.x = x ∧
    (if c = true then
        bsp_part_one rnd rootArea fuel x y w h (level + 1) st ridx
      else
        (Bsp.leaf x y w h (terrain_bsp_cb rnd level st0 ridx0).1.1
            (terrain_bsp_cb rnd level st0 ridx0).1.2,
          (terrain_bsp_cb rnd level st0 ridx0).2.1,
          (terrain_bsp_cb rnd level st0 ridx0).2.2)).1.y = y ∧
    (if c = true then
        bsp_part_one rnd rootArea fuel x y w h (level + 1) st ridx
      else
        (Bsp.leaf x y w h (terrain_bsp_cb rnd level st0 ridx0).1.1
            (terrain_bsp_cb rnd level st0 ridx0).1.2,
          (terrain_bsp_cb rnd level st0 ridx0).2.1,
          (terrain_bsp_cb rnd level st0 ridx0).2.2)).1.w = w ∧
    (if c = true then
        bsp_part_one rnd rootArea fuel x y w h (level + 1) st ridx
      else
        (Bsp.leaf x y w h (terrain_bsp_cb rnd level st0 ridx0).1.1
            (terrain_bsp_cb rnd level st0 ridx0).1.2,
          (terrain_bsp_cb rnd level st0 ridx0).2.1,
          (terrain_bsp_cb rnd level st0 ridx0).2.2)).1.h = h ∧
    all_splits_good (if c = true then
        bsp_part_one rnd rootArea fuel x y w h (level + 1) st ridx
      else
        (Bsp.leaf x y w h (terrain_bsp_cb rnd level st0 ridx0).1.1
            (terrain_bsp_cb rnd level st0 ridx0).1.2,
          (terrain_bsp_cb rnd level st0 ridx0).2.1,
          (terrain_bsp_cb rnd level st0 ridx0).2.2)).1 := by
  cases c
  · exact ⟨rfl, rfl, rfl, rfl, trivial⟩
  · exact ⟨bsp_part_one_fst_x rnd rootArea fuel x y w h (level + 1) st ridx,
      bsp_part_one_fst_y rnd rootArea fuel x y w h (level + 1) st ridx,
      bsp_part_one_fst_w rnd rootArea fuel x y w h (level + 1) st ridx,
      bsp_part_one_fst_h rnd rootArea fuel x y w h (level + 1) st ridx,
      ih x y w h (level + 1) st ridx⟩

lemma all_splits_good_node (v : Bool) (x y w h : ℤ)
    (pA pB : (Bsp × ℕ × ℕ) × (Bsp × ℕ × ℕ))
    (hA : good_split x y w h pA.1.1 pA.2.1 ∧
      all_splits_good pA.1.1 ∧ all_splits_good pA.2.1)
    (hB : good_split x y w h pB.1.1 pB.2.1 ∧
      all_splits_good pB.1.1 ∧ all_splits_good pB.2.1) :
    all_splits_good (Bsp.node x y w h (if v = true then pA else pB).1.1
      (if v = true then pA else pB).2.1) := by
  cases v
  · exact hB
  · exact hA

lemma all_splits_good_part_one (rnd : ℕ → ℕ) (rootArea : ℤ) :
    ∀ (fuel : ℕ) (x y w h : ℤ) (level st ridx : ℕ),
      all_splits_good (bsp_part_one rnd rootArea fuel x y w h level st ridx).1 := by
  intro fuel
  induction fuel with
  | zero => intro x y w h level st ridx; trivial
  | succ fuel ih =>
    intro x y w h level st ridx
    refine all_splits_good_node _ x y w h _ _ ?_ ?_
    · obtain ⟨hax, hay, haw, hah, hag⟩ :=
        split_child_spec rnd rootArea fuel ih _ x y _ h level _ ridx _ ridx
      obtain ⟨hbx, hby, hbw, hbh, hbg⟩ :=
        split_child_spec rnd rootArea fuel ih _ (x + _) y (w - _) h level _ _ _ _
      exact ⟨good_split_of_rects_v x y w h _ _ _ hax hay haw hah hbx hby hbw hbh, hag, hbg⟩
    · obtain ⟨hax, hay, haw, hah, hag⟩ :=
        split_child_spec rnd rootArea fuel ih _ x y w _ level _ ridx _ ridx
      obtain ⟨hbx, hby, hbw, hbh, hbg⟩ :=
        split_child_spec rnd rootArea fuel ih _ x (y + _) w (h - _) level _ _ _ _
      exact ⟨good_split_of_rects_h x y w h _ _ _ hax hay haw hah hbx hby hbw hbh, hag, hbg⟩

/-- C8: in every tree bsp_process builds, for every internal node, the two
children areas sum exactly to the node area (integer arithmetic) and the
children rectangles tile the node rectangle with no gap or overlap; this
holds for every seed, every rand() stream and every root rectangle. -/
theorem bsp_process_tiles (seed : ℕ) (x y w h : ℤ) (rnd : ℕ → ℕ) :
    all_splits_good (bsp_process seed x y w h rnd) :=
  all_splits_good_part_one rnd (w * h) 18 x y w h 0 (srand48 seed) 0

/-! ## Claim C7: out-of-bounds queries return the 0 sentinel -/

/-- C7: terrain_height returns exactly 0 for every query strictly outside
the closed world rectangle of the terrain, whatever the height map holds
(and also when the map pointer is NULL): a defined sentinel, not an error. -/
theorem terrain_height_outside_zero {α : Type} [LinearOrderedField α] [FloorRing α]
    (t : TerrainA α) (x z : α)
    (h : x < t.x ∨ x > t.x + (t.side : α) ∨ z < t.z ∨ z > t.z + (t.side : α)) :
    terrain_height t x z = 0 := by
  unfold terrain_height
  cases hm : t.map with
  | none => rfl
  | some m => simp [h]

theorem terrain_height_outside_zero_witness :
    ((9 : ℚ) < tC7.x ∨ (9 : ℚ) > tC7.x + (tC7.side : ℚ) ∨
      (0 : ℚ) < tC7.z ∨ (0 : ℚ) > tC7.z + (tC7.side : ℚ)) ∧
    terrain_height tC7 9 0 = 0 :=
  ⟨by norm_num [tC7], terrain_height_outside_zero tC7 9 0 (by norm_num [tC7])⟩

/-! ## Claim C6: height-map reads of an accepted query -/

/-- C6: the claim says every accepted query only reads height-map indices
below nr_vert * nr_vert, including queries on the far edges. Evaluated on a
2x2-vertex terrain (side 1, origin 0), the query (1, 0) on the far x edge
passes the bounds check, yet the triangle selection reads index
4 = nr_vert * nr_vert, one past the end of the allocation: an out-of-bounds
read in the C code. -/
theorem terrain_height_reads_past_end :
    ¬((1 : ℚ) < tC6.x ∨ (1 : ℚ) > tC6.x + (tC6.side : ℚ) ∨
        (0 : ℚ) < tC6.z ∨ (0 : ℚ) > tC6.z + (tC6.side : ℚ)) ∧
    terrain_height_reads tC6 1 0 = [2, 4, 3] ∧
    ((tC6.nr_vert : ℤ) * tC6.nr_vert ≤ 4) := by
  refine ⟨by norm_num [tC6], ?_, by norm_num [tC6]⟩
  unfold terrain_height_reads tC6
  norm_num

/-! ## Concrete evaluation lemmas for the builder (used by C2 and C3).

The concrete runs use terrain seed 1, nr_v = 9 (hence a 1x1 maze grid),
origin (0, 0, 0) and world side 8. A 1x1 maze grid seeded from ambient
state 0 holds the single value 4 and decays to [1] over the three steps;
seeded from ambient state 1 it starts dead and stays [0]. -/

lemma maze_from_state0 : (ca_gen_maze ca_test 1 3 0).1 = [1] := by decide

lemma maze_from_state1 : (ca_gen_maze ca_test 1 3 1).1 = [0] := by decide

lemma maze_avg_one_00 : maze_avg [1] 1 0 0 = 1 := by
  have h1 : xyarray_get [1] 1 0 0 = 1 := by decide
  have h2 : xyarray_get [1] 1 (0 - 1) 0 = 0 := by decide
  have h3 : xyarray_get [1] 1 0 (0 - 1) = 0 := by decide
  unfold maze_avg
  norm_num [MAZE_FAC, h1, h2, h3]
  simpa using cos_interp_zero 1 1

lemma maze_avg_one_80 : maze_avg [1] 1 8 0 = 1 := by
  have h1 : xyarray_get [1] 1 1 0 = 0 := by decide
  have h2 : xyarray_get [1] 1 0 0 = 1 := by decide
  have h3 : xyarray_get [1] 1 1 (-1) = 0 := by decide
  unfold maze_avg
  norm_num [MAZE_FAC, h1, h2, h3]
  rw [cos_interp_neg_one, cos_interp_neg_one]
  simpa using cos_interp_zero (1 : ℝ) 0

lemma maze_avg_zero_00 : maze_avg [0] 1 0 0 = 0 := by
  have h1 : xyarray_get [0] 1 0 0 = 0 := by decide
  have h2 : xyarray_get [0] 1 (-1) 0 = 0 := by decide
  have h3 : xyarray_get [0] 1 0 (-1) = 0 := by decide
  unfold maze_avg
  norm_num [MAZE_FAC, h1, h2, h3]
  all_goals simp [cos_interp_neg_one, cos_interp_zero]

lemma gih_zero (seed n : ℕ) :
    get_interp_height seed n 0 0 = ((get_avg_height seed n 0 0 : ℚ) : ℝ) := by
  have h := get_interp_height_intCast seed n 0 0
  norm_num at h
  exact h

lemma gih_one (seed n : ℕ) :
    get_interp_height seed n 1 0 = ((get_avg_height seed n 1 0 : ℚ) : ℝ) := by
  have h := get_interp_height_intCast seed n 1 0
  norm_num at h
  exact h

lemma gih_two (seed n : ℕ) :
    get_interp_height seed n 2 0 = ((get_avg_height seed n 2 0 : ℚ) : ℝ) := by
  have h := get_interp_height_intCast seed n 2 0
  norm_num at h
  exact h

lemma gih_four (seed n : ℕ) :
    get_interp_height seed n 4 0 = ((get_avg_height seed n 4 0 : ℚ) : ℝ) := by
  have h := get_interp_height_intCast seed n 4 0
  norm_num at h
  exact h

lemma gih_eight (seed n : ℕ) :
    get_interp_height seed n 8 0 = ((get_avg_height seed n 8 0 : ℚ) : ℝ) := by
  have h := get_interp_height_intCast seed n 8 0
  norm_num at h
  exact h

lemma get_height_x0 (seed n : ℕ) (ty amp : ℝ) :
    get_height seed n ty 0 0 amp 4 =
      ty + ((get_avg_height seed n 0 0 : ℚ) : ℝ) * amp * (15 / 8) := by
  simp only [get_height]
  rw [Finset.sum_range_succ, Finset.sum_range_succ, Finset.sum_range_succ,
    Finset.sum_range_succ, Finset.sum_range_zero]
  norm_num [gih_zero]
  ring

lemma get_height_x8 (seed n : ℕ) (ty amp : ℝ) :
    get_height seed n ty 8 0 amp 4 =
      ty + (((get_avg_height seed n 1 0 : ℚ) : ℝ) +
        ((get_avg_height seed n 2 0 : ℚ) : ℝ) / 2 +
        ((get_avg_height seed n 4 0 : ℚ) : ℝ) / 4 +
        ((get_avg_height seed n 8 0 : ℚ) : ℝ) / 8) * amp := by
  simp only [get_height]
  rw [Finset.sum_range_succ, Finset.sum_range_succ, Finset.sum_range_succ,
    Finset.sum_range_succ, Finset.sum_range_zero]
  norm_num [gih_one, gih_two, gih_four, gih_eight]
  ring

lemma builder_cell_eq (tree : Bsp) (maze : List ℕ) (mside : ℤ) (seed nr_v : ℕ)
    (y : ℝ) (i j : ℕ) :
    builder_cell tree maze mside seed nr_v y i j =
      get_height seed nr_v y (i : ℤ) (j : ℤ)
        ((1.5 : ℝ) ^ maze_avg maze mside i j) OCTAVES +
      maze_avg maze mside i j := rfl

lemma avg_val_00 : get_avg_height 1 9 0 0 = -47713210298111 / 140737488355328 := by
  simp [get_avg_height, get_mapped_rand_height, grh, get_rand_height, drand48, srand48,
    rand48next]
  norm_num

lemma avg_val_10 : get_avg_height 1 9 1 0 = -36849413402367 / 140737488355328 := by
  simp [get_avg_height, get_mapped_rand_height, grh, get_rand_height, drand48, srand48,
    rand48next]
  norm_num

lemma avg_val_20 : get_avg_height 1 9 2 0 = 14745599660289 / 140737488355328 := by
  simp [get_avg_height, get_mapped_rand_height, grh, get_rand_height, drand48, srand48,
    rand48next]
  norm_num

lemma avg_val_40 : get_avg_height 1 9 4 0 = 29974695563521 / 140737488355328 := by
  simp [get_avg_height, get_mapped_rand_height, grh, get_rand_height, drand48, srand48,
    rand48next]
  norm_num

lemma avg_val_80 : get_avg_height 1 9 8 0 = -34256432000767 / 140737488355328 := by
  simp [get_avg_height, get_mapped_rand_height, grh, get_rand_height, drand48, srand48,
    rand48next]
  norm_num

/-! ## Claim C2: the terrain seed does not drive all construction
randomness -/

/-- C2 counterexample: two builder runs with the same terrain seed 1 and
identical parameters, differing only in the ambient rand48 state present
when the run starts (0 versus 1), produce different height maps: the maze
seeding draws from the ambient lrand48 stream before the terrain seed is
ever used, the maze shifts the cell height additively, and the two runs
get different mazes. -/
theorem height_map_not_determined_by_seed :
    (terrain_init_square_landscape 0 1 (fun _ => 0) 0 0 0 8 9).map ≠
    (terrain_init_square_landscape 1 1 (fun _ => 0) 0 0 0 8 9).map := by
  intro h
  simp only [terrain_init_square_landscape] at h
  have hms : ((9 / MAZE_FAC : ℕ) : ℤ) = 1 := by norm_num [MAZE_FAC]
  rw [hms, maze_from_state0, maze_from_state1] at h
  have h3 := congrFun (Option.some.inj h) 0
  norm_num at h3
  rw [builder_cell_eq, builder_cell_eq, maze_avg_one_00, maze_avg_zero_00,
    Real.rpow_one, Real.rpow_zero] at h3
  simp only [OCTAVES] at h3
  push_cast at h3
  rw [get_height_x0, get_height_x0, avg_val_00] at h3
  norm_num at h3

/-- C2 amended: the terrain seed drives the BSP and seed-height randomness,
but the maze automaton is seeded from the ambient lrand48 stream present at
entry, which the terrain seed does not control; the height map is identical
between two runs with the same seed and parameters exactly when the two
ambient states produce the same maze grid. -/
theorem height_map_determined_by_seed_and_maze (X0 X02 seed : ℕ) (rnd : ℕ → ℕ)
    (x y z sideF : ℝ) (nr_v : ℕ)
    (hmz : (ca_gen_maze ca_test ((nr_v / MAZE_FAC : ℕ) : ℤ) 3 X0).1 =
      (ca_gen_maze ca_test ((nr_v / MAZE_FAC : ℕ) : ℤ) 3 X02).1) :
    (terrain_init_square_landscape X0 seed rnd x y z sideF nr_v).map =
    (terrain_init_square_landscape X02 seed rnd x y z sideF nr_v).map := by
  simp only [terrain_init_square_landscape]
  rw [hmz]

theorem height_map_determined_by_seed_and_maze_witness :
    (ca_gen_maze ca_test ((9 / MAZE_FAC : ℕ) : ℤ) 3 0).1 =
      (ca_gen_maze ca_test ((9 / MAZE_FAC : ℕ) : ℤ) 3 3).1 ∧
    (terrain_init_square_landscape 0 1 (fun _ => 0) 0 0 0 8 9).map =
      (terrain_init_square_landscape 3 1 (fun _ => 0) 0 0 0 8 9).map :=
  ⟨by decide,
    height_map_determined_by_seed_and_maze 0 3 1 (fun _ => 0) 0 0 0 8 9 (by decide)⟩

/-! ## Claim C3: the wrap seam of the height field -/

lemma terrain_height_corner_vals (t : TerrainA ℝ) (m : ℤ → ℝ)
    (hm : t.map = some m) (hx : t.x = 0) (hz : t.z = 0) (hs : t.side = 8)
    (hn : t.nr_vert = 9) :
    terrain_height t 0 0 = m 0 ∧ terrain_height t 8 0 = m 72 := by
  unfold terrain_height
  rw [hm, hx, hz, hs, hn]
  constructor <;> norm_num [barrycentric]

lemma tC3_map : tC3.map = some (fun k =>
    if 0 ≤ k ∧ k < 81 then
      builder_cell (bsp_process 1 0 0 9 9 (fun _ => 0)) [1] 1 1 9 0
        (k.toNat / 9) (k.toNat % 9)
    else 0) := rfl

lemma tC3_side : tC3.side = 8 := by
  unfold tC3 terrain_init_square_landscape
  rw [show (8 : ℝ) = ((8 : ℤ) : ℝ) by norm_num, Int.floor_intCast]
  rfl

/-- C3 counterexample: on the built terrain tC3 (origin x = 0, side 8), the
height at the x = origin.x edge and the height at the x = origin.x + side
edge, at z = origin.z, differ by more than 1/2 — far beyond floating-point
tolerance — so the wrap seam of the height field is not continuous. The
grid spans nr_vert - 1 squares while the seed-height wrap period is
nr_vert, so the last vertex row does not reproduce the first. -/
theorem terrain_height_seam_gap :
    (1 / 2 : ℝ) < |terrain_height tC3 0 0 - terrain_height tC3 8 0| := by
  obtain ⟨hh0, hh8⟩ := terrain_height_corner_vals tC3 _ tC3_map rfl rfl tC3_side rfl
  rw [hh0, hh8]
  norm_num [show ((72 : ℤ).toNat) = 72 from rfl, show ((0 : ℤ).toNat) = 0 from rfl]
  rw [builder_cell_eq, builder_cell_eq, maze_avg_one_00, maze_avg_one_80, Real.rpow_one]
  simp only [OCTAVES]
  push_cast
  rw [get_height_x0, get_height_x8, avg_val_00, avg_val_10, avg_val_20, avg_val_40,
    avg_val_80]
  have habs : ∀ a : ℝ, a < 0 → (1 / 2 : ℝ) < -a → (1 / 2 : ℝ) < |a| := by
    intro a ha hb
    rw [abs_of_neg ha]
    exact hb
  apply habs <;> norm_num

/-- C3 amended: the toroidal wrap the specification describes exists one
level down, in the seed-height lookup: get_mapped_rand_height maps index
-1 to nr_vert - 1 and index nr_vert to 0, so the precomputed seed grid is
read as a torus; the final height field itself is not continuous across
the world-rect seam (see the counterexample). -/
theorem mapped_rand_height_wraps (seed n : ℕ) (z : ℤ) :
    get_mapped_rand_height seed n (-1) z = get_mapped_rand_height seed n ((n : ℤ) - 1) z ∧
    get_mapped_rand_height seed n ((n : ℤ)) z = get_mapped_rand_height seed n 0 z := by
  simp only [get_mapped_rand_height]
  constructor <;>
  · congr 2
    split_ifs <;> omega

end Clap
